import Mathlib

/-!
Verification of `bic_parallel_coords.py` (class `BiclusterVisualizer`).

The source is line-oriented Python over strings, dictionaries and pandas
frames.  We embed it shallowly:

* Python strings are `List Char` (`Str` below), so that every string
  operation of the source is an executable structural recursion that the
  kernel can evaluate on concrete inputs.
* Fallible operations (`list[i]`, `float(s)`, `df[cols]`, numeric coercion)
  return `Except String _`, the error message naming the Python exception.
* A pandas frame is its list of column names plus its row-major cells
  (`Df`); cells are strings, exactly what the three line parsers produce.
* Floats are never computed with: the source only (a) checks that a string
  parses as a float and (b) carries the parsed value around for display by
  the external plotting library.  We therefore validate float syntax and
  keep the source text of each float verbatim.
* The plotting library and the file system are external collaborators: a
  render call is modelled by the data the source hands them (projected
  frame, colour vector, annotation content, output path) plus the counter
  update, with errors raised at the same program points as in the source.
-/

deriving instance DecidableEq for Except

namespace BicPC

/-- Python strings, modelled as lists of characters. -/
abbrev Str := List Char

/-- The characters of a Lean string literal (used to transcribe the
string literals of the source). -/
def strOf (s : String) : Str := s.data

/-- Test that `p` is a prefix of `l`. -/
def isPre : Str → Str → Bool
  | [], _ => true
  | _, [] => false
  | a :: as, b :: bs => a == b && isPre as bs

/-- Python startswith. -/
def pyStartsWith (l p : Str) : Bool := isPre p l

/-- Python endswith. -/
def pyEndsWith (l p : Str) : Bool := isPre p.reverse l.reverse

/-- Worker for the Python split method: fuel-structured scan so the kernel
can evaluate it; fuel `rem.length` always suffices because every step
consumes at least one character of `rem`. -/
def pySplitAux (sep : Str) : Nat → Str → Str → List Str
  | _, [], acc => [acc.reverse]
  | 0, rem, acc => [acc.reverse ++ rem]
  | fuel + 1, c :: cs, acc =>
    if isPre sep (c :: cs) && !sep.isEmpty then
      acc.reverse :: pySplitAux sep fuel (List.drop sep.length (c :: cs)) []
    else
      pySplitAux sep fuel cs (c :: acc)

/-- Python split for a non-empty separator: non-overlapping
occurrences scanned left to right, empty pieces kept. -/
def pySplit (sep l : Str) : List Str := pySplitAux sep l.length l []

/-- Python lstrip: drop leading characters satisfying `p`. -/
def pyLStrip (p : Char → Bool) (l : Str) : Str := l.dropWhile p

/-- Python rstrip: drop trailing characters satisfying `p`. -/
def pyRStrip (p : Char → Bool) (l : Str) : Str := (l.reverse.dropWhile p).reverse

/-- Python strip with an explicit character set. -/
def pyStrip (p : Char → Bool) (l : Str) : Str := pyRStrip p (pyLStrip p l)

/-- ASCII whitespace, the Python default strip set. -/
def isWs (c : Char) : Bool :=
  c == ' ' || c == '\t' || c == '\n' || c == '\r' || c == '\x0b' || c == '\x0c'

/-- Truthiness of a stripped line: the line has a non-space character. -/
def nonBlank (l : Str) : Bool := !(pyStrip isWs l).isEmpty

/-- Decimal digits of `n`, worker with fuel (`n + 1` suffices since the
argument is divided by ten at each step). -/
def natToCharsAux : Nat → Nat → Str
  | 0, _ => []
  | fuel + 1, n =>
    if n < 10 then [Char.ofNat (48 + n)]
    else natToCharsAux fuel (n / 10) ++ [Char.ofNat (48 + n % 10)]

/-- The Python decimal rendering of a natural number. -/
def natToChars (n : Nat) : Str := natToCharsAux (n + 1) n

/-- Consume leading decimal digits, returning their count and the rest. -/
def spanDigits : Str → Nat × Str
  | [] => (0, [])
  | c :: cs =>
    if c.isDigit then
      let (n, r) := spanDigits cs
      (n + 1, r)
    else (0, c :: cs)

/-- Optional exponent part of a float literal, which must end the string. -/
def expPart : Str → Bool
  | [] => true
  | c :: cs =>
    if c == 'e' || c == 'E' then
      let body := match cs with
        | d :: ds => if d == '+' || d == '-' then ds else d :: ds
        | [] => []
      let (n, r) := spanDigits body
      decide (0 < n) && r.isEmpty
    else false

/-- Digits, optional decimal point, optional exponent. -/
def mantissaAndExp (l : Str) : Bool :=
  let (n1, r1) := spanDigits l
  match r1 with
  | '.' :: r2 =>
    let (n2, r3) := spanDigits r2
    decide (0 < n1 + n2) && expPart r3
  | _ => decide (0 < n1) && expPart r1

/-- Acceptance of the Python float constructor (and of the numeric
coercion of a cell),
restricted to the signed decimal and exponent forms the modelled file
formats produce; Python strips surrounding whitespace first. -/
def isPyFloat (l : Str) : Bool :=
  match pyStrip isWs l with
  | c :: cs => if c == '+' || c == '-' then mantissaAndExp cs else mantissaAndExp (c :: cs)
  | [] => false

/-- Python list subscripting with its `IndexError`. -/
def pyGet {α : Type} (l : List α) (i : Nat) : Except String α :=
  match l[i]? with
  | some a => .ok a
  | none => .error "IndexError"

/-- A pandas frame as the loaders build it: named columns and row-major
string cells.  (The source never constructs a column-less frame; the
degenerate `cols = []` value is outside its domain.) -/
structure Df where
  cols : List Str
  rows : List (List Str)
deriving DecidableEq, Repr

/-- One metadata entry of the ARFF loader: attribute name and declared
categorical values. -/
structure MainVar where
  var : Str
  vals : List Str
deriving DecidableEq, Repr

/-- The character set of the strip calls in the ARFF attribute branch:
square brackets, space, comma, single quote (written `Char.ofNat 39`),
closing brace, double quote, newline.  Note the opening brace is absent
from the set. -/
def arffStripChar (c : Char) : Bool :=
  c == '[' || c == ' ' || c == ',' || c == Char.ofNat 39 ||
  c == '\x7d' || c == '\"' || c == '\n' || c == ']'

/-- Loop state of the ARFF loader: data-mode flag, raw rows, raw column
headers, attribute counter, metadata list. -/
structure AState where
  flag : Bool
  data : List (List Str)
  cols : List Str
  counter : Nat
  mainVar : List MainVar
deriving DecidableEq, Repr

/-- One iteration of the line loop of the ARFF loader.
A join of the characters of a stripped string is the stripped string
itself.  The brace
test compares `len(line.split("\x7b")[0])` with 1; `line` starts with
`@ATTRIBUTE` in that branch, so the prefix before any opening brace always
has length above 1 and only `counter > 1` decides the branch. -/
def arffStep (st : AState) (line : Str) : Except String AState :=
  if nonBlank line then
    if st.flag then
      .ok {st with data := st.data ++ [pySplit (strOf ",") (pyRStrip (fun c => c == '\n') line)]}
    else if pyStartsWith line (strOf "@ATTRIBUTE") then
      let c := st.counter + 1
      let fields := pySplit (strOf "\t") line
      (pyGet fields 1).bind (fun nameF =>
        if 1 < c ∧ 1 < ((pySplit (strOf "\x7b") line).headD []).length then
          (pyGet fields 2).map (fun valsF =>
            {st with
              counter := c
              mainVar := st.mainVar ++
                [⟨pyStrip arffStripChar nameF, (pySplit (strOf ",") valsF).map (pyStrip arffStripChar)⟩]
              cols := st.cols ++ [pyStrip isWs nameF]})
        else
          .ok {st with
            counter := c
            mainVar := st.mainVar ++ [⟨pyStrip arffStripChar nameF, []⟩]
            cols := st.cols ++ [pyStrip isWs nameF]})
    else if pyStartsWith line (strOf "@DATA") then .ok {st with flag := true}
    else .ok st
  else .ok st

/-- The column names kept by the duplicate-collapsing loop of the ARFF
loader (first occurrence of each name, in order). -/
def keptCols (cols : List Str) : List Str :=
  cols.foldl (fun acc c => if c ∈ acc then acc else acc ++ [c]) []

/-- The positional indices the duplicate-collapsing loop keeps: an index is
kept exactly when its name did not occur earlier (membership in the
already-built `final_cols` equals membership in the processed prefix). -/
def keptIdxs (cols : List Str) : List Nat :=
  (List.range cols.length).filter (fun i => (cols.getD i []) ∉ cols.take i)

/-- Rebuild the data rows from the kept column indices; the subscript
raises `IndexError` on a short row, as in the source. -/
def arffRows (cols : List Str) (data : List (List Str)) : Except String (List (List Str)) :=
  data.mapM (fun row => (keptIdxs cols).mapM (fun i => pyGet row i))

/-- The dropna call (with how set to all) drops rows whose cells are all
missing.  Every cell the line splitters produce is a string, never a
missing value, so the call keeps every row. -/
def dropnaAll (rows : List (List Str)) : List (List Str) := rows

/-- The whole of the private ARFF loader over the lines of the file (each
line as Python file iteration yields it, trailing newline included). -/
def loadDataArff (ls : List Str) : Except String (Df × List MainVar) := do
  let st ← ls.foldlM arffStep ⟨false, [], [], 0, []⟩
  let rows ← arffRows st.cols st.data
  pure (⟨keptCols st.cols, dropnaAll rows⟩, st.mainVar)

/-- The CSV loader: first line is the header, every further line a row;
no blank-line filtering, no quoting. -/
def loadDataCsv (ls : List Str) : Except String (Df × List MainVar) :=
  match ls with
  | [] => .ok (⟨[], dropnaAll []⟩, [])
  | h :: t =>
    .ok (⟨pySplit (strOf ",") (pyRStrip (fun c => c == '\n') h),
          dropnaAll (t.map (fun l => pySplit (strOf ",") (pyRStrip (fun c => c == '\n') l)))⟩, [])

/-- The TXT loader: line 1 ignored, line 2 holds the headers after the
separator (an `IndexError` if it is absent), later lines split on the
vertical bar. -/
def loadDataTxt (ls : List Str) : Except String (Df × List MainVar) :=
  match ls with
  | _ :: second :: rest => do
    let t ← pyGet (pySplit (strOf ": [") second) 1
    pure (⟨strOf "lines" :: pySplit (strOf ", ") (pyRStrip (fun c => c == ']' || c == '\n') t),
           dropnaAll (rest.map (fun l => pySplit (strOf "|") (pyRStrip (fun c => c == '|' || c == '\n') l)))⟩, [])
  | _ => .ok (⟨[], dropnaAll []⟩, [])

/-- Dispatch of load_data on the extension of the filename; a name
matching no extension falls off the chain of conditionals and Python
returns None without touching the file (the content argument stands for
whatever the file would hold). -/
def loadData (name : Str) (content : List Str) : Option (Except String (Df × List MainVar)) :=
  if pyEndsWith name (strOf ".arff") then some (loadDataArff content)
  else if pyEndsWith name (strOf ".csv") then some (loadDataCsv content)
  else if pyEndsWith name (strOf ".txt") then some (loadDataTxt content)
  else none

/-- One bicluster record as load_biclusters builds it: a Python dict
whose keys appear only when the matching token was seen.  The pvalue
field keeps the validated source text of the float, the lifts field the
validated pieces. -/
structure ParsedBic where
  pattern : Option (List Str)
  cols : Option (List Str)
  lines : Option (List Str)
  pvalue : Option Str
  lifts : Option (List Str)
deriving DecidableEq, Repr

/-- The bracket stripping applied to the record tokens: lstrip of opening
brackets then rstrip of closing brackets (note: no newline in the right
strip set). -/
def stripBrk (l : Str) : Str :=
  pyRStrip (fun c => c == ']') (pyLStrip (fun c => c == '[') l)

/-- The piece of a token between the first and second equals sign (the
default `[]` is unreachable for tokens that start with a key and an
equals sign). -/
def eqPiece (tok : Str) : Str := (pySplit (strOf "=") tok).getD 1 []

/-- The lift pieces of a record line: the text of the whole line between
the first and second occurrence of the lifts key, an lstrip of opening
brackets, an rstrip of closing brackets and newlines, split on commas. -/
def liftPieces (line : Str) : List Str :=
  pySplit (strOf ",")
    (pyRStrip (fun c => c == ']' || c == '\n')
      (pyLStrip (fun c => c == '[') ((pySplit (strOf "Lifts=") line).getD 1 [])))

/-- The token loop of load_biclusters over one record line; the arm of
the lifts key re-reads the entire line and stops the scan (no recursive
call).  A float
that fails to parse raises `ValueError` out of the whole call. -/
def scanTokens (line : Str) : List Str → ParsedBic → Except String ParsedBic
  | [], cur => .ok cur
  | tok :: rest, cur =>
    if pyStartsWith tok (strOf "I=") then
      scanTokens line rest {cur with pattern := some (pySplit (strOf ",") (stripBrk (eqPiece tok)))}
    else if pyStartsWith tok (strOf "Y=") then
      scanTokens line rest {cur with cols := some (pySplit (strOf ",") (stripBrk (eqPiece tok)))}
    else if pyStartsWith tok (strOf "X=") then
      scanTokens line rest {cur with lines := some (pySplit (strOf ",") (stripBrk (eqPiece tok)))}
    else if pyStartsWith tok (strOf "pvalue=") then
      if isPyFloat (eqPiece tok) then scanTokens line rest {cur with pvalue := some (eqPiece tok)}
      else .error "ValueError"
    else if pyStartsWith tok (strOf "Lifts=") then
      if (liftPieces line).all isPyFloat then .ok {cur with lifts := some (liftPieces line)}
      else .error "ValueError"
    else scanTokens line rest cur

/-- Parse one indented record line: split on single spaces, scan tokens. -/
def parseBicLine (line : Str) : Except String ParsedBic :=
  scanTokens line (pySplit (strOf " ") line) ⟨none, none, none, none, none⟩

/-- Loop state of load_biclusters: committed results (an insertion-order
dict), current block index `i` (starts at `-1`), in-block flag, pending
records. -/
structure BState where
  results : List (Nat × List ParsedBic)
  i : Int
  flag : Bool
  batch : List ParsedBic
deriving DecidableEq, Repr

/-- Python dict assignment of a value to a key: replace in place or
append. -/
def setA {α : Type} : List (Nat × α) → Nat → α → List (Nat × α)
  | [], k, v => [(k, v)]
  | (k', v') :: rest, k, v =>
    if k' = k then (k, v) :: rest else (k', v') :: setA rest k v

/-- Python dict lookup. -/
def lookupA {α : Type} : List (Nat × α) → Nat → Option α
  | [], _ => none
  | (k', v') :: rest, k => if k' = k then some v' else lookupA rest k

/-- The blank-line branch of load_biclusters: commit the pending batch
under the current index whenever `i >= 0`, and clear the flag. -/
def bcommit (st : BState) : BState :=
  if 0 ≤ st.i then {st with results := setA st.results st.i.toNat st.batch, flag := false}
  else {st with flag := false}

/-- One iteration of the line loop of load_biclusters. -/
def bstep (st : BState) (line : Str) : Except String BState :=
  if nonBlank line then
    if pyStartsWith line (strOf "FOUND") then
      .ok {st with i := st.i + 1, batch := [], flag := true}
    else if pyStartsWith line (strOf " ") && st.flag then
      (parseBicLine line).map (fun b => {st with batch := st.batch ++ [b]})
    else .ok st
  else .ok (bcommit st)

/-- Run the loop over the remaining lines. -/
def runLines (st : BState) : List Str → Except String BState
  | [] => .ok st
  | l :: ls => (bstep st l).bind (fun st' => runLines st' ls)

/-- The whole of load_biclusters over the lines of the file. -/
def loadBiclusters (ls : List Str) : Except String (List (Nat × List ParsedBic)) :=
  (runLines ⟨[], -1, false, []⟩ ls).map (fun st => st.results)

/-- A bicluster record as the two plot methods consume it: they read the
cols and lines keys unconditionally and test the pvalue and lifts keys
with the membership operator. -/
structure Bic where
  pattern : List Str
  cols : List Str
  lines : List Str
  pvalue : Option Str
  lifts : Option (List Str)
deriving DecidableEq, Repr

/-- The values of the first column of the frame: the first cell of every
row. -/
def firstCol (df : Df) : List Str := df.rows.map (fun r => r.headD [])

/-- The colour vector of the categorical renderer.  The source compares
`len(set(first column))` with `len(first column)/2` under float division;
for integer operands that is exactly `2 * distinct < rows`. -/
def catColor (df : Df) (bicLines : List Str) : List Nat :=
  if 2 * (firstCol df).dedup.length < df.rows.length then
    (List.range df.rows.length).map (fun i => if natToChars i ∈ bicLines then 1 else 0)
  else (firstCol df).map (fun x => if x ∈ bicLines then 1 else 0)

/-- The colour vector of the numeric renderer: same construction,
threshold `distinct < rows` instead of `2 * distinct < rows`. -/
def numColor (df : Df) (bicLines : List Str) : List Nat :=
  if (firstCol df).dedup.length < df.rows.length then
    (List.range df.rows.length).map (fun i => if natToChars i ∈ bicLines then 1 else 0)
  else (firstCol df).map (fun x => if x ∈ bicLines then 1 else 0)

/-- Projection of the frame onto the named columns as the subscript of a
frame by a list of labels does, a `KeyError` if one is absent (column
names are assumed distinct, as in the loaded files). -/
def projectCols (df : Df) (cs : List Str) : Except String Df :=
  if ∀ c ∈ cs, c ∈ df.cols then
    .ok ⟨cs, df.rows.map (fun r => cs.map (fun c => r.getD (df.cols.findIdx (fun x => x == c)) []))⟩
  else .error "KeyError"

/-- The insert call appending the colour column at the end of the frame;
the colour cells are rendered as decimal strings to keep one cell type. -/
def insertColor (df : Df) (color : List Nat) : Df :=
  ⟨df.cols ++ [strOf "color"], (df.rows.zip color).map (fun rc => rc.1 ++ [natToChars rc.2])⟩

/-- The replace call that turns question-mark cells into not-a-number,
followed by the numeric coercion of every cell: it succeeds exactly when
every cell is a question mark or numeric; the numeric values themselves
are only consumed by the plotting library, so the frame is passed
through. -/
def toNumericCheck (df : Df) : Except String Df :=
  if df.rows.all (fun r => r.all (fun cell => cell == strOf "?" || isPyFloat cell)) then .ok df
  else .error "ValueError"

/-- The lift lines of the annotation: one pair per declared value of the
first metadata entry, positionally paired with the lifts of the record
(the subscript raises `IndexError` when the lifts are too short; the
lift text is carried verbatim, its display rounding being external). -/
def buildLift (mv : MainVar) (ls : List Str) : Except String (List (Str × Str)) :=
  if mv.vals.length ≤ ls.length then .ok (mv.vals.zip ls) else .error "IndexError"

/-- The annotation step of plot_parallel_categories: after the head of a
non-empty metadata list replaces the list, the guard conjoins the
truthiness of the metadata, of its declared values and of the presence of
lifts, so an empty metadata list skips the lift text and still
annotates. -/
def catAnnot (mainVar : List MainVar) (bic : Bic) :
    Except String (Option (Str × List (Str × Str))) :=
  match bic.pvalue with
  | none => .ok none
  | some pv =>
    match mainVar, bic.lifts with
    | mv :: _, some ls =>
      if mv.vals ≠ [] then (buildLift mv ls).map (fun ps => some (pv, ps))
      else .ok (some (pv, []))
    | _, _ => .ok (some (pv, []))

/-- The annotation step of plot_parallel_coordinates: its guard reads the
declared values with no emptiness check first, so when the metadata list
is empty the subscript hits the empty list itself and Python raises a
`TypeError`. -/
def coordAnnot (mainVar : List MainVar) (bic : Bic) :
    Except String (Option (Str × List (Str × Str))) :=
  match bic.pvalue with
  | none => .ok none
  | some pv =>
    match mainVar with
    | [] => .error "TypeError"
    | mv :: _ =>
      match bic.lifts with
      | some ls =>
        if mv.vals ≠ [] then (buildLift mv ls).map (fun ps => some (pv, ps))
        else .ok (some (pv, []))
      | none => .ok (some (pv, []))

/-- What one render call hands to the outside world: the HTML paths
written, the updated session counter, the annotation content, and the
frame given to the plotting library. -/
structure RenderResult where
  files : List Str
  counter : Nat
  annot : Option (Str × List (Str × Str))
  frame : Df
deriving DecidableEq, Repr

/-- The categorical renderer: colour vector, projection, annotation, then
the single HTML write and the counter increment.  Every failing
operation precedes the write, so an error yields no file and leaves the
counter untouched. -/
def plotParallelCategories (bic : Bic) (df : Df) (mainVar : List MainVar)
    (folder : Str) (counter : Nat) : Except String RenderResult :=
  let color := catColor df bic.lines
  (projectCols df bic.cols).bind (fun proj =>
    (catAnnot mainVar bic).map (fun ann =>
      ⟨[strOf "results/ParallelCategories (" ++ folder ++ strOf ")/pc_" ++
          natToChars counter ++ strOf ".html"],
       counter + 1, ann, insertColor proj color⟩))

/-- The numeric renderer: as above with the numeric colour threshold, the
question-mark replacement plus numeric coercion, and the unguarded
annotation step. -/
def plotParallelCoordinates (bic : Bic) (df : Df) (mainVar : List MainVar)
    (folder : Str) (counter : Nat) : Except String RenderResult :=
  let color := numColor df bic.lines
  (projectCols df bic.cols).bind (fun proj =>
    (toNumericCheck (insertColor proj color)).bind (fun frame =>
      (coordAnnot mainVar bic).map (fun ann =>
        ⟨[strOf "results/ParallelCoordinates (" ++ folder ++ strOf ")/pc_" ++
            natToChars counter ++ strOf ".html"],
         counter + 1, ann, frame⟩)))

/-- A minimal ARFF file: one plain attribute, one attribute with a braced
two-value set, two data rows. -/
def arffMinimal : List Str :=
  [strOf "@RELATION test\n", strOf "@ATTRIBUTE\tattr1\tNUMERIC\n",
   strOf "@ATTRIBUTE\tattr2\t\x7bA,B\x7d\n", strOf "@DATA\n", strOf "1,A\n", strOf "2,B\n"]

/-- A two-row frame whose first column is all distinct. -/
def dfUnique : Df := ⟨[strOf "c"], [[strOf "a"], [strOf "b"]]⟩

/-- A three-row frame whose first column has two distinct values among
three rows, so the distinct ratio lies between one half and one. -/
def dfDup : Df := ⟨[strOf "c"], [[strOf "a"], [strOf "a"], [strOf "b"]]⟩

/- ------------------------------------------------------------------ -/
/- Helper lemmas                                                      -/
/- ------------------------------------------------------------------ -/

theorem indicator_eq_one {p : Prop} [Decidable p] : (if p then (1 : Nat) else 0) = 1 ↔ p := by
  by_cases h : p <;> simp [h]

theorem getD_map_of_lt {α β : Type} (f : α → β) (l : List α) (i : Nat) (d : α) (d' : β)
    (h : i < l.length) : (l.map f).getD i d' = f (l.getD i d) := by
  induction l generalizing i with
  | nil => simp at h
  | cons a as ih =>
    cases i with
    | zero => rfl
    | succ n => simpa using ih n (by simpa using h)

theorem getD_range_of_lt (i n d : Nat) (h : i < n) : (List.range n).getD i d = i := by
  rw [List.getD_eq_getElem?_getD, List.getElem?_range h]
  rfl

theorem getD_indicator_map (l ls : List Str) (i : Nat) (h : i < l.length) :
    ((l.map (fun x => if x ∈ ls then (1 : Nat) else 0)).getD i 0 = 1) ↔ l.getD i [] ∈ ls := by
  rw [getD_map_of_lt _ _ i [] 0 h]
  show (if l.getD i [] ∈ ls then (1 : Nat) else 0) = 1 ↔ _
  exact indicator_eq_one

theorem getD_indicator_range (n i : Nat) (ls : List Str) (h : i < n) :
    (((List.range n).map (fun j => if natToChars j ∈ ls then (1 : Nat) else 0)).getD i 0 = 1) ↔
      natToChars i ∈ ls := by
  rw [getD_map_of_lt _ _ i 0 0 (by simpa using h), getD_range_of_lt i n 0 h]
  show (if natToChars i ∈ ls then (1 : Nat) else 0) = 1 ↔ _
  exact indicator_eq_one

/- ------------------------------------------------------------------ -/
/- C2                                                                 -/
/- ------------------------------------------------------------------ -/

/-- C2: the categorical colour vector sets entry i to 1 exactly when the
decimal rendering of i is among the record rows, provided the number of
distinct first-column values is below half the row count, and exactly
when the i-th first-column value is among the record rows otherwise; the
numeric colour vector follows the same two rules with the switch at
distinct count strictly below the row count. -/
theorem color_vector_rules (df : Df) (ls : List Str) (i : Nat) (hi : i < df.rows.length) :
    ((catColor df ls).getD i 0 = 1 ↔
      (if 2 * (firstCol df).dedup.length < df.rows.length then natToChars i ∈ ls
       else (firstCol df).getD i [] ∈ ls)) ∧
    ((numColor df ls).getD i 0 = 1 ↔
      (if (firstCol df).dedup.length < df.rows.length then natToChars i ∈ ls
       else (firstCol df).getD i [] ∈ ls)) := by
  have hfc : i < (firstCol df).length := by simpa [firstCol] using hi
  constructor
  · by_cases h : 2 * (firstCol df).dedup.length < df.rows.length
    · rw [if_pos h]
      have hc : catColor df ls =
          (List.range df.rows.length).map (fun j => if natToChars j ∈ ls then (1 : Nat) else 0) := by
        unfold catColor; exact if_pos h
      rw [hc]
      exact getD_indicator_range _ _ _ hi
    · rw [if_neg h]
      have hc : catColor df ls = (firstCol df).map (fun x => if x ∈ ls then (1 : Nat) else 0) := by
        unfold catColor; exact if_neg h
      rw [hc]
      exact getD_indicator_map _ _ _ hfc
  · by_cases h : (firstCol df).dedup.length < df.rows.length
    · rw [if_pos h]
      have hc : numColor df ls =
          (List.range df.rows.length).map (fun j => if natToChars j ∈ ls then (1 : Nat) else 0) := by
        unfold numColor; exact if_pos h
      rw [hc]
      exact getD_indicator_range _ _ _ hi
    · rw [if_neg h]
      have hc : numColor df ls = (firstCol df).map (fun x => if x ∈ ls then (1 : Nat) else 0) := by
        unfold numColor; exact if_neg h
      rw [hc]
      exact getD_indicator_map _ _ _ hfc

theorem color_vector_rules_witness :
    ((catColor dfDup [strOf "a"]).getD 0 0 = 1 ↔
      (if 2 * (firstCol dfDup).dedup.length < dfDup.rows.length then natToChars 0 ∈ [strOf "a"]
       else (firstCol dfDup).getD 0 [] ∈ [strOf "a"])) ∧
    ((numColor dfDup [strOf "a"]).getD 0 0 = 1 ↔
      (if (firstCol dfDup).dedup.length < dfDup.rows.length then natToChars 0 ∈ [strOf "a"]
       else (firstCol dfDup).getD 0 [] ∈ [strOf "a"])) :=
  color_vector_rules dfDup [strOf "a"] 0 (by decide)

/- ------------------------------------------------------------------ -/
/- C1                                                                 -/
/- ------------------------------------------------------------------ -/

/-- C1, counterexample: on a dataset whose first column is all distinct
the categorical renderer does not use positional indexing — entry 0 of
its colour vector is 1 although the decimal rendering of 0 is not among
the record rows (the first-column value is). -/
theorem cat_color_unique_not_positional_cex :
    (firstCol dfUnique).dedup.length = dfUnique.rows.length ∧
    (catColor dfUnique [strOf "a"]).getD 0 0 = 1 ∧
    natToChars 0 ∉ [strOf "a"] := by decide

/-- C1, amended: when the first column is all distinct BOTH renderers
value-match (and agree); when the distinct count is at least half of the
rows but below the row count, the categorical vector value-matches while
the numeric one is positional, so the two diverge whenever positional and
value membership differ at some row. -/
theorem color_modes_value_match_and_diverge :
    (∀ (df : Df) (ls : List Str),
      (firstCol df).dedup.length = df.rows.length →
      (catColor df ls = numColor df ls ∧
       ∀ i, i < df.rows.length →
         ((numColor df ls).getD i 0 = 1 ↔ (firstCol df).getD i [] ∈ ls))) ∧
    (∀ (df : Df) (ls : List Str),
      df.rows.length ≤ 2 * (firstCol df).dedup.length →
      (firstCol df).dedup.length < df.rows.length →
      (∃ i, i < df.rows.length ∧ ¬((natToChars i ∈ ls) ↔ (firstCol df).getD i [] ∈ ls)) →
      catColor df ls ≠ numColor df ls) := by
  constructor
  · intro df ls hd
    have hc : catColor df ls = (firstCol df).map (fun x => if x ∈ ls then (1 : Nat) else 0) := by
      unfold catColor; exact if_neg (by omega)
    have hn : numColor df ls = (firstCol df).map (fun x => if x ∈ ls then (1 : Nat) else 0) := by
      unfold numColor; exact if_neg (by omega)
    refine ⟨hc.trans hn.symm, ?_⟩
    intro i hi
    rw [hn]
    exact getD_indicator_map _ _ _ (by simpa [firstCol] using hi)
  · intro df ls h1 h2 hex heq
    obtain ⟨i, hi, hne⟩ := hex
    have hc : catColor df ls = (firstCol df).map (fun x => if x ∈ ls then (1 : Nat) else 0) := by
      unfold catColor; exact if_neg (by omega)
    have hn : numColor df ls =
        (List.range df.rows.length).map (fun j => if natToChars j ∈ ls then (1 : Nat) else 0) := by
      unfold numColor; exact if_pos h2
    apply hne
    have hv : ((catColor df ls).getD i 0 = 1) ↔ (firstCol df).getD i [] ∈ ls := by
      rw [hc]; exact getD_indicator_map _ _ _ (by simpa [firstCol] using hi)
    have hp : ((numColor df ls).getD i 0 = 1) ↔ natToChars i ∈ ls := by
      rw [hn]; exact getD_indicator_range _ _ _ hi
    rw [← hp, ← hv, heq]

theorem color_modes_value_match_and_diverge_witness :
    (catColor dfUnique [strOf "a"] = numColor dfUnique [strOf "a"]) ∧
    catColor dfDup [strOf "a"] ≠ numColor dfDup [strOf "a"] :=
  ⟨(color_modes_value_match_and_diverge.1 dfUnique [strOf "a"] (by decide)).1,
   color_modes_value_match_and_diverge.2 dfDup [strOf "a"] (by decide) (by decide)
     ⟨0, by decide, by decide⟩⟩

/- ------------------------------------------------------------------ -/
/- C3                                                                 -/
/- ------------------------------------------------------------------ -/

/-- C3 (code bug): with an empty column-metadata list — the invariable
case for CSV and TXT datasets — and a record carrying a p-value, the
numeric renderer does not complete: its unguarded annotation step
subscripts the empty metadata list and raises, while the categorical
renderer (whose guard checks emptiness first) completes and attaches the
p-value annotation with no lift lines. -/
theorem coordinates_empty_meta_crash :
    plotParallelCoordinates ⟨[], [strOf "c1"], [strOf "0"], some (strOf "0.01"), none⟩
        ⟨[strOf "c1"], [[strOf "1"], [strOf "2"]]⟩ [] (strOf "f") 0 = .error "TypeError" ∧
    plotParallelCategories ⟨[], [strOf "c1"], [strOf "0"], some (strOf "0.01"), none⟩
        ⟨[strOf "c1"], [[strOf "1"], [strOf "2"]]⟩ [] (strOf "f") 0 =
      .ok ⟨[strOf "results/ParallelCategories (f)/pc_0.html"], 1, some (strOf "0.01", []),
        ⟨[strOf "c1", strOf "color"], [[strOf "1", strOf "0"], [strOf "2", strOf "0"]]⟩⟩ := by
  decide

/- ------------------------------------------------------------------ -/
/- C4                                                                 -/
/- ------------------------------------------------------------------ -/

theorem lookupA_setA {α : Type} (l : List (Nat × α)) (k : Nat) (v : α) :
    lookupA (setA l k v) k = some v := by
  induction l with
  | nil => simp [setA, lookupA]
  | cons p rest ih =>
    obtain ⟨k', v'⟩ := p
    by_cases h : k' = k
    · simp [setA, h, lookupA]
    · simp [setA, h, lookupA, ih]

/-- C4, counterexample: a results file consisting of one FOUND line and a
blank line commits the block even though it holds zero record lines — its
index 0 appears in the result, mapped to the empty record list. -/
theorem empty_block_committed_cex :
    loadBiclusters [strOf "FOUND bics\n", strOf "\n"] = .ok [(0, [])] ∧
    lookupA [((0 : Nat), ([] : List ParsedBic))] 0 = some [] := by decide

/-- C4, amended: a FOUND block with zero record lines before its
terminating blank line IS committed — the blank line stores the empty
pending batch under the new block index, which therefore does appear as a
key of the result. -/
theorem empty_block_commits_empty_batch (st : BState) (f b : Str)
    (hge : -1 ≤ st.i)
    (hf : pyStartsWith f (strOf "FOUND") = true)
    (hnb : nonBlank f = true)
    (hb : nonBlank b = false) :
    runLines st [f, b] =
      .ok ⟨setA st.results (st.i + 1).toNat [], st.i + 1, false, []⟩ ∧
    lookupA (setA st.results (st.i + 1).toNat []) (st.i + 1).toNat = some [] := by
  have s1 : bstep st f = .ok {st with i := st.i + 1, batch := [], flag := true} := by
    simp [bstep, hnb, hf]
  have s2 : bstep {st with i := st.i + 1, batch := [], flag := true} b =
      .ok ⟨setA st.results (st.i + 1).toNat [], st.i + 1, false, []⟩ := by
    have h0 : (0 : Int) ≤ st.i + 1 := by omega
    simp [bstep, hb, bcommit, h0]
  refine ⟨?_, lookupA_setA _ _ _⟩
  simp [runLines, s1, s2, Except.bind]

theorem empty_block_commits_empty_batch_witness :
    runLines (⟨[], -1, false, []⟩ : BState) [strOf "FOUND bics\n", strOf "\n"] =
      .ok ⟨setA ([] : List (Nat × List ParsedBic)) ((-1 : Int) + 1).toNat [],
           (-1 : Int) + 1, false, []⟩ ∧
    lookupA (setA ([] : List (Nat × List ParsedBic)) ((-1 : Int) + 1).toNat [])
      ((-1 : Int) + 1).toNat = some [] :=
  empty_block_commits_empty_batch ⟨[], -1, false, []⟩ (strOf "FOUND bics\n") (strOf "\n")
    (by decide) (by decide) (by decide) (by decide)

/- ------------------------------------------------------------------ -/
/- C5                                                                 -/
/- ------------------------------------------------------------------ -/

theorem bstep_nonblank_results (st : BState) (l : Str) (st' : BState)
    (hl : nonBlank l = true) (h : bstep st l = .ok st') : st'.results = st.results := by
  simp only [bstep, hl, if_true] at h
  split_ifs at h
  · simp only [Except.ok.injEq] at h
    rw [← h]
  · cases hp : parseBicLine l with
    | error e => rw [hp] at h; simp [Except.map] at h
    | ok b =>
      rw [hp] at h
      simp only [Except.map, Except.ok.injEq] at h
      rw [← h]
  · simp only [Except.ok.injEq] at h
    rw [← h]

theorem runLines_nonblank_results (ls : List Str) : ∀ (st st' : BState),
    (∀ l ∈ ls, nonBlank l = true) → runLines st ls = .ok st' → st'.results = st.results := by
  induction ls with
  | nil =>
    intro st st' _ h
    simp only [runLines, Except.ok.injEq] at h
    rw [← h]
  | cons l ls ih =>
    intro st st' hb h
    simp only [runLines] at h
    cases hs : bstep st l with
    | error e => rw [hs] at h; simp [Except.bind] at h
    | ok st1 =>
      rw [hs] at h
      simp only [Except.bind] at h
      have h1 := bstep_nonblank_results st l st1 (hb l (by simp)) hs
      have h2 := ih st1 st' (fun x hx => hb x (by simp [hx])) h
      rw [h2, h1]

/-- C5: the commit of a block happens only on a blank line, so a run over
lines that are all non-blank never changes the committed results; in
particular a results file with no blank line at all — e.g. a single FOUND
block whose record lines reach end-of-input — yields an empty result. -/
theorem no_blank_no_commit :
    (∀ (st : BState) (ls : List Str) (st' : BState),
      (∀ l ∈ ls, nonBlank l = true) → runLines st ls = .ok st' → st'.results = st.results) ∧
    (∀ (ls : List Str) (res : List (Nat × List ParsedBic)),
      (∀ l ∈ ls, nonBlank l = true) → loadBiclusters ls = .ok res → res = []) := by
  constructor
  · intro st ls st' h1 h2
    exact runLines_nonblank_results ls st st' h1 h2
  · intro ls res h1 h2
    unfold loadBiclusters at h2
    cases hr : runLines ⟨[], -1, false, []⟩ ls with
    | error e => rw [hr] at h2; simp [Except.map] at h2
    | ok st' =>
      rw [hr] at h2
      simp only [Except.map, Except.ok.injEq] at h2
      rw [← h2]
      exact runLines_nonblank_results ls _ st' h1 hr

theorem no_blank_no_commit_witness :
    loadBiclusters [strOf "FOUND bics\n", strOf " Y=[a] X=[1]\n"] = .ok [] ∧
    ([] : List (Nat × List ParsedBic)) = [] :=
  ⟨by decide,
   no_blank_no_commit.2 [strOf "FOUND bics\n", strOf " Y=[a] X=[1]\n"] []
     (by decide) (by decide)⟩

/- ------------------------------------------------------------------ -/
/- C6 and C7                                                          -/
/- ------------------------------------------------------------------ -/

theorem pyGet_ok {α : Type} (l : List α) (i : Nat) (d : α) (h : i < l.length) :
    pyGet l i = .ok (l.getD i d) := by
  simp [pyGet, List.getElem?_eq_getElem h, List.getD_eq_getElem?_getD]

/-- C6, counterexample: the second attribute declaration carries no braced
list, yet its parsed entry has the non-empty declared values list holding
the raw type token — the brace condition of the source never fires for
attribute lines, only the not-first condition does. -/
theorem arff_vals_without_brace_cex :
    (loadDataArff [strOf "@ATTRIBUTE\tattr1\tNUMERIC\n", strOf "@ATTRIBUTE\tattr2\tNUMERIC\n",
        strOf "@DATA\n", strOf "1,2\n"]).map (fun p => p.2) =
      .ok [⟨strOf "attr1", []⟩, ⟨strOf "attr2", [strOf "NUMERIC"]⟩] ∧
    (strOf "@ATTRIBUTE\tattr2\tNUMERIC\n").contains '\x7b' = false ∧
    [strOf "NUMERIC"] ≠ ([] : List Str) := by decide

/-- C6, amended: on an attribute declaration (with at least three
tab-separated fields) the first declared attribute always gets empty
declared values, and every later declaration gets the comma-split,
character-stripped pieces of its third tab field — whether or not a
braced list is present. -/
theorem arff_attr_vals_rule (st : AState) (line : Str)
    (hflag : st.flag = false)
    (hnb : nonBlank line = true)
    (hattr : pyStartsWith line (strOf "@ATTRIBUTE") = true)
    (hbrace : 1 < ((pySplit (strOf "\x7b") line).headD []).length)
    (hfields : 2 < (pySplit (strOf "\t") line).length) :
    arffStep st line = .ok ⟨st.flag, st.data,
      st.cols ++ [pyStrip isWs ((pySplit (strOf "\t") line).getD 1 [])],
      st.counter + 1,
      st.mainVar ++ [⟨pyStrip arffStripChar ((pySplit (strOf "\t") line).getD 1 []),
        if st.counter = 0 then []
        else (pySplit (strOf ",") ((pySplit (strOf "\t") line).getD 2 [])).map
          (pyStrip arffStripChar)⟩]⟩ := by
  have g1 := pyGet_ok (pySplit (strOf "\t") line) 1 ([] : Str) (by omega)
  have g2 := pyGet_ok (pySplit (strOf "\t") line) 2 ([] : Str) hfields
  cases hc : st.counter with
  | zero =>
    simp [arffStep, hnb, hflag, hattr, g1, Except.bind, hc]
  | succ k =>
    have hgt : 1 < k + 1 + 1 := by omega
    have hb2 : 1 < ((pySplit (strOf "\x7b") line).head?.getD []).length := by
      simpa [List.headD_eq_head?_getD] using hbrace
    have hb3 : ¬((pySplit (strOf "\x7b") line).head?.getD []).length ≤ 1 := Nat.not_le.mpr hb2
    simp [arffStep, hnb, hflag, hattr, g1, g2, Except.bind, Except.map, hc, hb2, hb3, hgt]

theorem arff_attr_vals_rule_witness :
    arffStep ⟨false, [], [strOf "attr1"], 1, [⟨strOf "attr1", []⟩]⟩
        (strOf "@ATTRIBUTE\tattr2\tNUMERIC\n") =
      .ok ⟨false, [], [strOf "attr1", strOf "attr2"], 2,
           [⟨strOf "attr1", []⟩, ⟨strOf "attr2", [strOf "NUMERIC"]⟩]⟩ := by
  have h := arff_attr_vals_rule ⟨false, [], [strOf "attr1"], 1, [⟨strOf "attr1", []⟩]⟩
    (strOf "@ATTRIBUTE\tattr2\tNUMERIC\n") (by decide) (by decide) (by decide)
    (by decide) (by decide)
  exact h.trans (by decide)

/-- C7, counterexample: the minimal ARFF file with a plain first attribute
and a braced two-value second attribute does not parse to the metadata
the claim states — the declared values of the second attribute are not
the clean pair of value names. -/
theorem arff_roundtrip_cex :
    (loadDataArff arffMinimal).map (fun p => p.2) ≠
      .ok [⟨strOf "attr1", []⟩, ⟨strOf "attr2", [strOf "A", strOf "B"]⟩] := by decide

/-- C7, amended: that file parses to a dataset with two columns and two
rows, and to metadata whose second entry keeps the opening brace on its
first declared value — the strip set of the source lacks the opening
brace, so the braced list contributes a value starting with a brace. -/
theorem arff_roundtrip_amended :
    loadDataArff arffMinimal =
      .ok (⟨[strOf "attr1", strOf "attr2"], [[strOf "1", strOf "A"], [strOf "2", strOf "B"]]⟩,
           [⟨strOf "attr1", []⟩, ⟨strOf "attr2", [strOf "\x7bA", strOf "B"]⟩]) := by decide

/- ------------------------------------------------------------------ -/
/- C8                                                                 -/
/- ------------------------------------------------------------------ -/

/-- C8: a record naming a column absent from the dataset makes both
renderers fail with the lookup error; the failure precedes the write and
the counter update, so no file appears and the counter is untouched (the
successful-result payload carrying both is never produced). -/
theorem render_missing_column_fails (bic : Bic) (df : Df) (mv : List MainVar)
    (folder : Str) (counter : Nat) (c : Str)
    (hin : c ∈ bic.cols) (hout : c ∉ df.cols) :
    plotParallelCategories bic df mv folder counter = .error "KeyError" ∧
    plotParallelCoordinates bic df mv folder counter = .error "KeyError" := by
  have hneg : ¬∀ x ∈ bic.cols, x ∈ df.cols := fun hall => hout (hall c hin)
  have hproj : projectCols df bic.cols = .error "KeyError" := by
    unfold projectCols
    rw [if_neg hneg]
  constructor
  · simp [plotParallelCategories, hproj, Except.bind]
  · simp [plotParallelCoordinates, hproj, Except.bind]

theorem render_missing_column_fails_witness :
    plotParallelCategories ⟨[], [strOf "zz"], [], none, none⟩
        ⟨[strOf "c1"], [[strOf "1"]]⟩ [] (strOf "f") 0 = .error "KeyError" ∧
    plotParallelCoordinates ⟨[], [strOf "zz"], [], none, none⟩
        ⟨[strOf "c1"], [[strOf "1"]]⟩ [] (strOf "f") 0 = .error "KeyError" :=
  render_missing_column_fails ⟨[], [strOf "zz"], [], none, none⟩
    ⟨[strOf "c1"], [[strOf "1"]]⟩ [] (strOf "f") 0 (strOf "zz") (by decide) (by decide)

/- ------------------------------------------------------------------ -/
/- C9                                                                 -/
/- ------------------------------------------------------------------ -/

/-- C9, counterexample: a token after the lifts token is not without
effect — it is swallowed into the whole-line substring the lifts are
parsed from, so the float conversion fails and the line yields an error
instead of a record, whereas the same line without the trailing token
parses fine. -/
theorem lifts_trailing_token_cex :
    parseBicLine (strOf " X=[0] Lifts=[1.5] Y=[c]\n") = .error "ValueError" ∧
    parseBicLine (strOf " X=[0] Lifts=[1.5]\n") =
      .ok ⟨none, none, some [strOf "0"], none, some [strOf "1.5"]⟩ := by decide

/-- C9, amended: once a token starting with the lifts key is reached, the
token scan stops — the result does not depend on the remaining tokens of
the token list — and a successful scan updates exactly the lifts field,
with the pieces taken from the substring of the entire line after the
lifts key (so text after that key on the line lands inside the lifts
substring rather than being scanned). -/
theorem lifts_scan_stops (line : Str) (cur : ParsedBic) (tok : Str)
    (rest rest' : List Str) (b : ParsedBic)
    (hL : pyStartsWith tok (strOf "Lifts=") = true)
    (hI : pyStartsWith tok (strOf "I=") = false)
    (hY : pyStartsWith tok (strOf "Y=") = false)
    (hX : pyStartsWith tok (strOf "X=") = false)
    (hP : pyStartsWith tok (strOf "pvalue=") = false) :
    scanTokens line (tok :: rest) cur = scanTokens line (tok :: rest') cur ∧
    (scanTokens line (tok :: rest) cur = .ok b →
      b = {cur with lifts := some (liftPieces line)}) := by
  have hstep : ∀ r : List Str, scanTokens line (tok :: r) cur =
      if (liftPieces line).all isPyFloat then .ok {cur with lifts := some (liftPieces line)}
      else .error "ValueError" := by
    intro r
    simp [scanTokens, hI, hY, hX, hP, hL]
  constructor
  · rw [hstep rest, hstep rest']
  · intro h
    rw [hstep rest] at h
    by_cases hf2 : (liftPieces line).all isPyFloat
    · rw [if_pos hf2] at h
      exact (Except.ok.inj h).symm
    · rw [if_neg hf2] at h
      exact Except.noConfusion h

theorem lifts_scan_stops_witness :
    scanTokens (strOf " Lifts=[1.5]\n") [strOf "Lifts=[1.5]", strOf "x"]
        ⟨none, none, none, none, none⟩ =
      scanTokens (strOf " Lifts=[1.5]\n") [strOf "Lifts=[1.5]"]
        ⟨none, none, none, none, none⟩ ∧
    (scanTokens (strOf " Lifts=[1.5]\n") [strOf "Lifts=[1.5]", strOf "x"]
        ⟨none, none, none, none, none⟩ =
        .ok ⟨none, none, none, none, some [strOf "1.5"]⟩ →
      (⟨none, none, none, none, some [strOf "1.5"]⟩ : ParsedBic) =
        ⟨none, none, none, none, some (liftPieces (strOf " Lifts=[1.5]\n"))⟩) :=
  lifts_scan_stops (strOf " Lifts=[1.5]\n") ⟨none, none, none, none, none⟩
    (strOf "Lifts=[1.5]") [strOf "x"] [] ⟨none, none, none, none, some [strOf "1.5"]⟩
    (by decide) (by decide) (by decide) (by decide) (by decide)

/- ------------------------------------------------------------------ -/
/- C10                                                                -/
/- ------------------------------------------------------------------ -/

/-- C10: a filename matching none of the three extensions makes load_data
return none, and the result does not depend on the file content — no file
access can influence it. -/
theorem load_data_unknown_ext_none (name : Str) (content : List Str)
    (h1 : pyEndsWith name (strOf ".arff") = false)
    (h2 : pyEndsWith name (strOf ".csv") = false)
    (h3 : pyEndsWith name (strOf ".txt") = false) :
    loadData name content = none ∧
    loadData name content = loadData name [] := by
  have hx : ∀ ct : List Str, loadData name ct = none := by
    intro ct
    simp [loadData, h1, h2, h3]
  exact ⟨hx content, (hx content).trans (hx []).symm⟩

theorem load_data_unknown_ext_none_witness :
    loadData (strOf "data.xls") [strOf "a,b\n"] = none ∧
    loadData (strOf "data.xls") [strOf "a,b\n"] = loadData (strOf "data.xls") [] :=
  load_data_unknown_ext_none (strOf "data.xls") [strOf "a,b\n"]
    (by decide) (by decide) (by decide)

end BicPC
